import Mathlib

/-!
Verification of the HTTP handler layer of `main.py` (Strands Agent FastAPI
service).  The handlers are pure functions of the process-wide agent
singleton and the parsed request body; the opaque external agent library is
modelled as a function from a prompt and an optional session identifier to
either a stringified result or a raised exception's message.  Sources of
nondeterminism used by the OpenAI-compatible endpoint (`uuid.uuid4().hex`
and `int(time.time())`) are passed in as explicit oracle parameters.
-/

namespace StrandsAgentAPI

/-- The opaque agent singleton's call behavior, `agent_instance(prompt,
session_id=...)`:  `Except.ok s` means the call returned a result whose
`str(...)` is `s`; `Except.error e` means the call raised an exception whose
`str(...)` is `e`.  A call without the `session_id` keyword
(`agent_instance(message)` in `/chat/simple`) is modelled by passing
`none`. -/
abbrev Agent : Type := String → Option String → Except String String

/-- Result of an HTTP handler: either the successful JSON body, or a raised
`HTTPException(status_code, detail)` that FastAPI turns into an error
response with that status code and detail. -/
inductive HandlerResult (α : Type) where
  | ok : α → HandlerResult α
  | httpError : Nat → String → HandlerResult α
deriving DecidableEq

/-- Pydantic model `ChatRequest`: `message: str`,
`session_id: Optional[str] = "default"`.  `none` encodes a JSON `null`
value for the field. -/
structure ChatRequest where
  message : String
  session_id : Option String
deriving DecidableEq

/-- Pydantic parsing of a `/chat` body whose `session_id` field may be
absent: the declared default `"default"` is applied exactly when the field
is missing from the body (`sessionIdField = none` encodes an absent field,
`some v` a present field with value `v`). -/
def ChatRequest.parse (message : String) (sessionIdField : Option (Option String)) :
    ChatRequest :=
  { message := message, session_id := sessionIdField.getD (some "default") }

/-- The dict returned by the `/chat` handler:
`{"response": str(result), "session_id": request.session_id}`. -/
structure ChatResponse where
  response : String
  session_id : Option String
deriving DecidableEq

/-- Pydantic model `Message`: `role: str`, `content: str`. -/
structure Message where
  role : String
  content : String
deriving DecidableEq

/-- Pydantic model `OpenAIChatRequest`.  `temperature`, `max_tokens` and
`stream` are optional and, in the handler, never read. -/
structure OpenAIChatRequest where
  model : String
  messages : List Message
  temperature : Option Float
  max_tokens : Option Int
  stream : Option Bool

/-- One entry of the `choices` list built by `/v1/chat/completions`:
`{"index": 0, "message": {...}, "finish_reason": "stop"}`. -/
structure Choice where
  index : Nat
  message : Message
  finish_reason : String
deriving DecidableEq

/-- The `usage` dict built by `/v1/chat/completions`. -/
structure Usage where
  prompt_tokens : Nat
  completion_tokens : Nat
  total_tokens : Nat
deriving DecidableEq

/-- The dict returned by `/v1/chat/completions` on success (pydantic model
`OpenAIChatResponse`; its `choices: List[Dict[str, Any]]` entries always
have exactly the `Choice` shape, and `usage: Dict[str, int]` always has
exactly the `Usage` shape). -/
structure OpenAIChatResponse where
  id : String
  object : String
  created : Nat
  model : String
  choices : List Choice
  usage : Usage
deriving DecidableEq

/-- Pydantic model `ToolInfo`: `name: str`, `description: str`. -/
structure ToolInfo where
  name : String
  description : String
deriving DecidableEq

/-- Pydantic model `HealthResponse`. -/
structure HealthResponse where
  status : String
  version : String
  agent_ready : Bool
deriving DecidableEq

/-- The maximal groups of consecutive non-whitespace characters, in order
(structural recursion so that concrete inputs evaluate). -/
def wsGroups : List Char → List (List Char)
  | [] => []
  | c :: cs =>
    if c.isWhitespace then wsGroups cs
    else
      match cs with
      | [] => [[c]]
      | d :: _ =>
        if d.isWhitespace then [c] :: wsGroups cs
        else
          match wsGroups cs with
          | [] => [[c]]
          | t :: ts => (c :: t) :: ts

/-- Python `s.split()` with no separator: split on whitespace runs,
discarding empty pieces.  (`Char.isWhitespace` covers the ASCII whitespace
of the strings at issue; Python additionally treats a few other Unicode
characters as whitespace.) -/
def pySplitWs (s : String) : List String :=
  (wsGroups s.toList).map fun cs => String.mk cs

/-- `GET /` (`root`): returns
`{"status": "healthy", "version": "1.0.0", "agent_ready": agent_instance is not None}`. -/
def root (agent_instance : Option Agent) : HealthResponse :=
  { status := "healthy", version := "1.0.0", agent_ready := agent_instance.isSome }

/-- `GET /health` (`health`): same body as `root`. -/
def health (agent_instance : Option Agent) : HealthResponse :=
  { status := "healthy", version := "1.0.0", agent_ready := agent_instance.isSome }

/-- `POST /chat` (`chat`): 503 when the singleton is absent; otherwise one
call `agent_instance(request.message, session_id=request.session_id)`, whose
stringified result is echoed with the request's session id; any exception
`e` from the call is caught and re-raised as
`HTTPException(500, f"Agent error: {str(e)}")`. -/
def chat (agent_instance : Option Agent) (request : ChatRequest) :
    HandlerResult ChatResponse :=
  match agent_instance with
  | none => .httpError 503 "Agent not initialized"
  | some ag =>
    match ag request.message request.session_id with
    | .ok result => .ok { response := result, session_id := request.session_id }
    | .error e => .httpError 500 ("Agent error: " ++ e)

/-- `GET /tools` (`list_tools`): returns a hardcoded three-entry list.  The
Python handler reads no process state; the (ignored) singleton parameter
records that the response is independent of it. -/
def list_tools (agent_instance : Option Agent) : List ToolInfo :=
  [ { name := "calculator",
      description := "Perform mathematical calculations and evaluate expressions" },
    { name := "current_time",
      description := "Get the current date and time" },
    { name := "send_sms",
      description := "Send SMS messages via Twilio" } ]

/-- The names of the tools actually registered on the agent at startup
(`tools=[calculator, current_time, send_sms]` in `lifespan`). -/
def registeredToolNames : List String :=
  ["calculator", "current_time", "send_sms"]

/-- `POST /chat/simple` (`chat_simple`): 503 when the singleton is absent;
otherwise one call `agent_instance(message)` (no session id), returning
`{"response": str(result)}`; exceptions become a 500 as in `chat`. -/
def chat_simple (agent_instance : Option Agent) (message : String) :
    HandlerResult String :=
  match agent_instance with
  | none => .httpError 503 "Agent not initialized"
  | some ag =>
    match ag message none with
    | .ok result => .ok result
    | .error e => .httpError 500 ("Agent error: " ++ e)

/-- The content of the last message whose role is `"user"`:
`user_messages = [msg for msg in request.messages if msg.role == "user"]`
followed by `user_messages[-1].content`; `none` exactly when
`user_messages` is empty. -/
def lastUserContent (messages : List Message) : Option String :=
  ((messages.filter fun m => m.role == "user").getLast?).map Message.content

/-- `POST /v1/chat/completions` (`openai_chat_completions`).  The 503 check
precedes the `try` block.  Inside the `try`, when no user-role message
exists the code raises `HTTPException(400, "No user message found")`; since
FastAPI's `HTTPException` subclasses `Exception`, the handler's own
`except Exception as e` catches that very exception and re-raises it as
`HTTPException(500, f"Agent error: {str(e)}")`, where `str` of the caught
`HTTPException` is `"400: No user message found"` — so the client receives
a 500, not a 400.  Otherwise the agent is called with the last user
message's content under session id `"openai-compat"` and the result is
wrapped in the OpenAI-compatible shape; `uuidHex` models
`uuid.uuid4().hex` and `now` models `int(time.time())`. -/
def openai_chat_completions (agent_instance : Option Agent)
    (request : OpenAIChatRequest) (uuidHex : String) (now : Nat) :
    HandlerResult OpenAIChatResponse :=
  match agent_instance with
  | none => .httpError 503 "Agent not initialized"
  | some ag =>
    match lastUserContent request.messages with
    | none => .httpError 500 ("Agent error: " ++ "400: No user message found")
    | some last_message =>
      match ag last_message (some "openai-compat") with
      | .error e => .httpError 500 ("Agent error: " ++ e)
      | .ok response_text =>
        .ok
          { id := "chatcmpl-" ++ uuidHex.take 8,
            object := "chat.completion",
            created := now,
            model := request.model,
            choices :=
              [ { index := 0,
                  message := { role := "assistant", content := response_text },
                  finish_reason := "stop" } ],
            usage :=
              { prompt_tokens := (pySplitWs last_message).length,
                completion_tokens := (pySplitWs response_text).length,
                total_tokens :=
                  (pySplitWs last_message).length + (pySplitWs response_text).length } }

/-- C3: for every request to `POST /chat`, `POST /chat/simple`, or
`POST /v1/chat/completions` while the agent singleton is absent, the
endpoint returns the 503 "Agent not initialized" condition (and, matching
on `none` before anything else, never invokes the agent). -/
theorem C3_uninitialized_returns_503 :
    (∀ request : ChatRequest,
      chat none request = .httpError 503 "Agent not initialized") ∧
    (∀ message : String,
      chat_simple none message = .httpError 503 "Agent not initialized") ∧
    (∀ (request : OpenAIChatRequest) (uuidHex : String) (now : Nat),
      openai_chat_completions none request uuidHex now =
        .httpError 503 "Agent not initialized") := by
  refine ⟨fun _ => rfl, fun _ => rfl, fun _ _ _ => rfl⟩

/-- C9: in `POST /v1/chat/completions` the uninitialized-singleton check
precedes message inspection: with the singleton absent, even a request with
no user-role message yields the 503 condition and never the 400
bad-request condition. -/
theorem C9_503_check_precedes_message_inspection
    (request : OpenAIChatRequest) (uuidHex : String) (now : Nat)
    (h : lastUserContent request.messages = none) :
    openai_chat_completions none request uuidHex now =
      .httpError 503 "Agent not initialized" ∧
    ∀ d : String,
      openai_chat_completions none request uuidHex now ≠ .httpError 400 d := by
  exact ⟨rfl, fun d hd => by simp [openai_chat_completions] at hd⟩

/-- C9 witness: the empty messages list has no user-role message, and the
handler still answers 503. -/
theorem C9_503_check_precedes_message_inspection_witness :
    openai_chat_completions none
        ⟨"strands-agent", [], some 0.7, some 1000, some false⟩ "0123abcd" 1700000000 =
      .httpError 503 "Agent not initialized" ∧
    ∀ d : String,
      openai_chat_completions none
          ⟨"strands-agent", [], some 0.7, some 1000, some false⟩ "0123abcd" 1700000000 ≠
        .httpError 400 d :=
  C9_503_check_precedes_message_inspection
    ⟨"strands-agent", [], some 0.7, some 1000, some false⟩ "0123abcd" 1700000000 rfl

/-- C7: once startup has completed (the singleton is present), `GET /` and
`GET /health` both return `{"status": "healthy", "version": "1.0.0",
"agent_ready": true}`; being pure functions of the unchanging singleton,
repeated calls are structurally identical. -/
theorem C7_health_endpoints_after_startup (ag : Agent) :
    root (some ag) = { status := "healthy", version := "1.0.0", agent_ready := true } ∧
    health (some ag) = root (some ag) := by
  exact ⟨rfl, rfl⟩

/-- C8: `GET /tools` returns the same static three-entry list whatever the
process state and whatever the live tool registry holds. -/
theorem C8_tools_list_is_static :
    (∀ s₁ s₂ : Option Agent, list_tools s₁ = list_tools s₂) ∧
    (∀ s : Option Agent,
      list_tools s =
        [ ⟨"calculator", "Perform mathematical calculations and evaluate expressions"⟩,
          ⟨"current_time", "Get the current date and time"⟩,
          ⟨"send_sms", "Send SMS messages via Twilio"⟩ ]) ∧
    (∀ s : Option Agent, (list_tools s).map ToolInfo.name = registeredToolNames) := by
  exact ⟨fun _ _ => rfl, fun _ => rfl, fun _ => rfl⟩

/-- C1 (code evaluation): with the singleton initialized, a
`/v1/chat/completions` request whose messages contain no user role is
answered with a 500 carrying `"Agent error: 400: No user message found"`,
never a 400: the `HTTPException(400, "No user message found")` raised
inside the `try` block is itself an `Exception`, so the handler's own
`except Exception` catches it and re-raises it as a 500. -/
theorem C1_no_user_message_yields_500_not_400 (ag : Agent)
    (request : OpenAIChatRequest) (uuidHex : String) (now : Nat)
    (h : lastUserContent request.messages = none) :
    openai_chat_completions (some ag) request uuidHex now =
      .httpError 500 "Agent error: 400: No user message found" ∧
    ∀ d : String,
      openai_chat_completions (some ag) request uuidHex now ≠ .httpError 400 d := by
  have he : openai_chat_completions (some ag) request uuidHex now =
      .httpError 500 ("Agent error: " ++ "400: No user message found") := by
    simp only [openai_chat_completions, h]
  have hs : "Agent error: " ++ "400: No user message found" =
      "Agent error: 400: No user message found" := by decide
  refine ⟨by rw [he, hs], ?_⟩
  intro d hd
  rw [he] at hd
  injection hd with h₁ h₂
  exact absurd h₁ (by decide)

/-- C1 witness: both failing inputs from the spec — `messages = []` and a
system-only message list — produce the 500, with the singleton present. -/
theorem C1_no_user_message_yields_500_not_400_witness :
    (openai_chat_completions (some fun _ _ => Except.ok "ok")
        ⟨"strands-agent", [], some 0.7, some 1000, some false⟩ "0123abcdef" 1700000000 =
      .httpError 500 "Agent error: 400: No user message found") ∧
    (openai_chat_completions (some fun _ _ => Except.ok "ok")
        ⟨"strands-agent", [⟨"system", "be helpful"⟩], none, none, none⟩ "0123abcdef" 1700000000 =
      .httpError 500 "Agent error: 400: No user message found") :=
  ⟨(C1_no_user_message_yields_500_not_400 (fun _ _ => Except.ok "ok")
      ⟨"strands-agent", [], some 0.7, some 1000, some false⟩ "0123abcdef" 1700000000
      (by decide)).1,
   (C1_no_user_message_yields_500_not_400 (fun _ _ => Except.ok "ok")
      ⟨"strands-agent", [⟨"system", "be helpful"⟩], none, none, none⟩ "0123abcdef" 1700000000
      (by decide)).1⟩

/-- C2: every successful `/v1/chat/completions` response satisfies
`usage.total_tokens = usage.prompt_tokens + usage.completion_tokens`
exactly, with `usage.prompt_tokens` the whitespace-token count of the last
user message's content. -/
theorem C2_usage_token_accounting (agent_instance : Option Agent)
    (request : OpenAIChatRequest) (uuidHex : String) (now : Nat)
    (resp : OpenAIChatResponse)
    (h : openai_chat_completions agent_instance request uuidHex now = .ok resp) :
    resp.usage.total_tokens = resp.usage.prompt_tokens + resp.usage.completion_tokens ∧
    ∀ c : String, lastUserContent request.messages = some c →
      resp.usage.prompt_tokens = (pySplitWs c).length := by
  cases agent_instance with
  | none => exact HandlerResult.noConfusion h
  | some ag =>
    cases hc : lastUserContent request.messages with
    | none =>
      simp only [openai_chat_completions, hc] at h
      exact HandlerResult.noConfusion h
    | some c =>
      simp only [openai_chat_completions, hc] at h
      cases hag : ag c (some "openai-compat") with
      | error e =>
        rw [hag] at h
        exact HandlerResult.noConfusion h
      | ok r =>
        rw [hag] at h
        injection h with h'
        subst h'
        refine ⟨rfl, ?_⟩
        intro c' hc'
        injection hc' with e
        subst e
        rfl

/-- C2 witness: for `messages = [system, user "hi"]` and an agent answering
`"Hello there friend"`, the handler succeeds with `prompt_tokens = 1`
(the whitespace-token count of `"hi"`), `completion_tokens = 3`,
`total_tokens = 4`. -/
theorem C2_usage_token_accounting_witness :
    (openai_chat_completions (some fun _ _ => Except.ok "Hello there friend")
        ⟨"strands-agent", [⟨"system", "be helpful"⟩, ⟨"user", "hi"⟩], none, none, none⟩
        "0123abcdef" 1700000000 =
      .ok
        { id := "chatcmpl-0123abcd", object := "chat.completion",
          created := 1700000000, model := "strands-agent",
          choices := [⟨0, ⟨"assistant", "Hello there friend"⟩, "stop"⟩],
          usage := ⟨1, 3, 4⟩ }) ∧
    (4 = 1 + 3 ∧ (1 : Nat) = (pySplitWs "hi").length) :=
  ⟨by decide,
   by
    have H := C2_usage_token_accounting
      (some fun _ _ => Except.ok "Hello there friend")
      ⟨"strands-agent", [⟨"system", "be helpful"⟩, ⟨"user", "hi"⟩], none, none, none⟩
      "0123abcdef" 1700000000
      { id := "chatcmpl-0123abcd", object := "chat.completion",
        created := 1700000000, model := "strands-agent",
        choices := [⟨0, ⟨"assistant", "Hello there friend"⟩, "stop"⟩],
        usage := ⟨1, 3, 4⟩ }
      (by decide)
    exact ⟨H.1, H.2 "hi" (by decide)⟩⟩

/-- C4: on every endpoint, an exception raised by the agent call is caught
and surfaced as a 500 whose detail is `"Agent error: "` followed by the
stringified exception. -/
theorem C4_agent_exception_maps_to_500 (ag : Agent) :
    (∀ (request : ChatRequest) (e : String),
      ag request.message request.session_id = .error e →
      chat (some ag) request = .httpError 500 ("Agent error: " ++ e)) ∧
    (∀ message e : String,
      ag message none = .error e →
      chat_simple (some ag) message = .httpError 500 ("Agent error: " ++ e)) ∧
    (∀ (request : OpenAIChatRequest) (uuidHex : String) (now : Nat) (c e : String),
      lastUserContent request.messages = some c →
      ag c (some "openai-compat") = .error e →
      openai_chat_completions (some ag) request uuidHex now =
        .httpError 500 ("Agent error: " ++ e)) := by
  refine ⟨?_, ?_, ?_⟩
  · intro request e h
    simp only [chat, h]
  · intro message e h
    simp only [chat_simple, h]
  · intro request uuidHex now c e hc h
    simp only [openai_chat_completions, hc, h]

/-- C4 witness: an agent raising `"boom"` turns into the 500 detail
`"Agent error: boom"` on all three endpoints. -/
theorem C4_agent_exception_maps_to_500_witness :
    (chat (some fun _ _ => Except.error "boom") ⟨"hello", some "s1"⟩ =
      .httpError 500 ("Agent error: " ++ "boom")) ∧
    (chat_simple (some fun _ _ => Except.error "boom") "hello" =
      .httpError 500 ("Agent error: " ++ "boom")) ∧
    (openai_chat_completions (some fun _ _ => Except.error "boom")
        ⟨"strands-agent", [⟨"user", "hi"⟩], none, none, none⟩ "0123abcdef" 1700000000 =
      .httpError 500 ("Agent error: " ++ "boom")) :=
  ⟨(C4_agent_exception_maps_to_500 (fun _ _ => Except.error "boom")).1
      ⟨"hello", some "s1"⟩ "boom" rfl,
   (C4_agent_exception_maps_to_500 (fun _ _ => Except.error "boom")).2.1
      "hello" "boom" rfl,
   (C4_agent_exception_maps_to_500 (fun _ _ => Except.error "boom")).2.2
      ⟨"strands-agent", [⟨"user", "hi"⟩], none, none, none⟩ "0123abcdef" 1700000000
      "hi" "boom" (by decide) rfl⟩

/-- C5: a successful `/chat` call returns the stringified agent result with
the request's session identifier echoed back, and pydantic's parsing fills
in `"default"` when the body omits the field. -/
theorem C5_chat_success_echoes_session (ag : Agent) :
    (∀ (request : ChatRequest) (r : String),
      ag request.message request.session_id = .ok r →
      chat (some ag) request = .ok { response := r, session_id := request.session_id }) ∧
    (∀ message : String, (ChatRequest.parse message none).session_id = some "default") := by
  refine ⟨?_, fun _ => rfl⟩
  intro request r h
  simp only [chat, h]

/-- C5 witness: an agent answering `"result"` echoes session id `"s1"`, and
a body omitting the field parses with session id `"default"`. -/
theorem C5_chat_success_echoes_session_witness :
    (chat (some fun _ _ => Except.ok "result") ⟨"hello", some "s1"⟩ =
      .ok { response := "result", session_id := some "s1" }) ∧
    (ChatRequest.parse "hello" none).session_id = some "default" :=
  ⟨(C5_chat_success_echoes_session (fun _ _ => Except.ok "result")).1
      ⟨"hello", some "s1"⟩ "result" rfl,
   (C5_chat_success_echoes_session (fun _ _ => Except.ok "result")).2 "hello"⟩

/-- C6: when a user-role message exists and the agent call (on the last
user message's content, under the fixed session id `"openai-compat"`)
succeeds, the response echoes the request's model and has exactly one
choice: index 0, role `"assistant"`, the stringified result as content,
finish reason `"stop"`. -/
theorem C6_openai_success_shape (ag : Agent) (request : OpenAIChatRequest)
    (uuidHex : String) (now : Nat) (c r : String)
    (hc : lastUserContent request.messages = some c)
    (hr : ag c (some "openai-compat") = .ok r) :
    openai_chat_completions (some ag) request uuidHex now =
      .ok
        { id := "chatcmpl-" ++ uuidHex.take 8,
          object := "chat.completion",
          created := now,
          model := request.model,
          choices := [⟨0, ⟨"assistant", r⟩, "stop"⟩],
          usage := ⟨(pySplitWs c).length, (pySplitWs r).length,
                    (pySplitWs c).length + (pySplitWs r).length⟩ } := by
  simp only [openai_chat_completions, hc, hr]

/-- C6 witness: concrete request `[system, user "add 2 and 3"]` with an
agent answering `"The answer is 5"`. -/
theorem C6_openai_success_shape_witness :
    openai_chat_completions (some fun _ _ => Except.ok "The answer is 5")
        ⟨"gpt-4o-mini", [⟨"system", "be helpful"⟩, ⟨"user", "add 2 and 3"⟩],
          some 0.7, some 1000, some false⟩ "0123abcdef" 1700000000 =
      .ok
        { id := "chatcmpl-" ++ ("0123abcdef" : String).take 8,
          object := "chat.completion",
          created := 1700000000,
          model := "gpt-4o-mini",
          choices := [⟨0, ⟨"assistant", "The answer is 5"⟩, "stop"⟩],
          usage := ⟨(pySplitWs "add 2 and 3").length, (pySplitWs "The answer is 5").length,
                    (pySplitWs "add 2 and 3").length + (pySplitWs "The answer is 5").length⟩ } :=
  C6_openai_success_shape (fun _ _ => Except.ok "The answer is 5")
    ⟨"gpt-4o-mini", [⟨"system", "be helpful"⟩, ⟨"user", "add 2 and 3"⟩],
      some 0.7, some 1000, some false⟩ "0123abcdef" 1700000000
    "add 2 and 3" "The answer is 5" (by decide) rfl

/-- Equality of `/v1/chat/completions` results up to the two nondeterministic
fields, the random `id` and the `created` timestamp. -/
def eqModuloIdCreated :
    HandlerResult OpenAIChatResponse → HandlerResult OpenAIChatResponse → Prop
  | .ok r₁, .ok r₂ =>
      r₁.object = r₂.object ∧ r₁.model = r₂.model ∧
      r₁.choices = r₂.choices ∧ r₁.usage = r₂.usage
  | .httpError c₁ d₁, .httpError c₂ d₂ => c₁ = c₂ ∧ d₁ = d₂
  | _, _ => False

/-- C10: `temperature`, `max_tokens` and `stream` are never read: two
requests agreeing on `messages` and `model` determine the same agent-call
argument (the last user message's content; the session id is the constant
`"openai-compat"`) and, against the same singleton, responses identical up
to the random id and the creation timestamp. -/
theorem C10_unused_fields_do_not_influence (st : Option Agent)
    (r₁ r₂ : OpenAIChatRequest) (u₁ u₂ : String) (n₁ n₂ : Nat)
    (hm : r₁.messages = r₂.messages) (hmo : r₁.model = r₂.model) :
    lastUserContent r₁.messages = lastUserContent r₂.messages ∧
    eqModuloIdCreated (openai_chat_completions st r₁ u₁ n₁)
      (openai_chat_completions st r₂ u₂ n₂) := by
  refine ⟨by rw [hm], ?_⟩
  cases st with
  | none => simp [openai_chat_completions, eqModuloIdCreated]
  | some ag =>
    have hc₂ : lastUserContent r₂.messages = lastUserContent r₁.messages := by rw [hm]
    cases hc : lastUserContent r₁.messages with
    | none =>
      rw [hc] at hc₂
      simp [openai_chat_completions, hc, hc₂, eqModuloIdCreated]
    | some c =>
      rw [hc] at hc₂
      cases hr : ag c (some "openai-compat") with
      | error e =>
        simp [openai_chat_completions, hc, hc₂, hr, eqModuloIdCreated]
      | ok r =>
        simp [openai_chat_completions, hc, hc₂, hr, eqModuloIdCreated, hmo]

/-- C10 witness: two requests with the same messages and model but
different `temperature`, `max_tokens` and `stream` values, against the same
agent, with different uuid and clock oracles. -/
theorem C10_unused_fields_do_not_influence_witness :
    lastUserContent
        (⟨"strands-agent", [⟨"user", "hi"⟩], some 0.7, some 1000, some false⟩ :
          OpenAIChatRequest).messages =
      lastUserContent
        (⟨"strands-agent", [⟨"user", "hi"⟩], some 0.0, some 5, some true⟩ :
          OpenAIChatRequest).messages ∧
    eqModuloIdCreated
      (openai_chat_completions (some fun _ _ => Except.ok "ok")
        ⟨"strands-agent", [⟨"user", "hi"⟩], some 0.7, some 1000, some false⟩
        "0123abcdef" 1700000000)
      (openai_chat_completions (some fun _ _ => Except.ok "ok")
        ⟨"strands-agent", [⟨"user", "hi"⟩], some 0.0, some 5, some true⟩
        "fedcba9876" 1800000000) :=
  C10_unused_fields_do_not_influence (some fun _ _ => Except.ok "ok")
    ⟨"strands-agent", [⟨"user", "hi"⟩], some 0.7, some 1000, some false⟩
    ⟨"strands-agent", [⟨"user", "hi"⟩], some 0.0, some 5, some true⟩
    "0123abcdef" "fedcba9876" 1700000000 1800000000 rfl rfl

end StrandsAgentAPI
